import Mathlib

/-!
# Verification of drvSimDetector.c (ADSimDetector)

A shallow embedding of `src/ADApp/simDetectorSrc/drvSimDetector.c`.

Modelling conventions:
* C `double` values are modelled as exact rationals (`ℚ`).  Every concrete
  input used in a theorem below is a dyadic rational that IEEE double
  arithmetic handles exactly, so the rational model agrees with the C
  program on those inputs.
* Fixed-width integer pixels are modelled as integers reduced modulo
  `2^w` (two's-complement wrap for the signed types); a C cast from
  `double` truncates toward zero.  Out-of-range casts are undefined
  behaviour in C; following the repository spec ("wraparound on overflow
  for integer types is accepted") they are modelled as wraparound.
* The epics event / mutex machinery is sequentialised: every boundary
  operation is a function on an explicit `SimState`; the signal sent to
  the simulation task is recorded in the `eventSignaled` field.
* File I/O is modelled through an explicit environment `FileEnv` carrying
  the file-name construction oracle, the fopen success oracle and the
  file-system contents.
-/

namespace SimDetector

/-! ## Pixel data types

The `ADDataType_t` enumeration from ADInterface.h (not under `src/`).
Modelled from the spec: "pixel data type (one of a fixed enumerated set of
signed/unsigned 8/16/32-bit integers and 32/64-bit floats)"; the numeric
codes follow the declaration order used by the driver's switch statements. -/

def ADInt8    : Int := 0
def ADUInt8   : Int := 1
def ADInt16   : Int := 2
def ADUInt16  : Int := 3
def ADInt32   : Int := 4
def ADUInt32  : Int := 5
def ADFloat32 : Int := 6
def ADFloat64 : Int := 7

/-- Modelled from the spec: `ADUtils->bytesPerPixel` (ADUtils is not under
`src/`): "`bytesPerPixel` is a pure function over the fixed pixel-type
enumeration"; an unrecognized type yields an error status. -/
def bytesPerPixel (dataType : Int) : Option Int :=
  if dataType = ADInt8 then some 1
  else if dataType = ADUInt8 then some 1
  else if dataType = ADInt16 then some 2
  else if dataType = ADUInt16 then some 2
  else if dataType = ADInt32 then some 4
  else if dataType = ADUInt32 then some 4
  else if dataType = ADFloat32 then some 4
  else if dataType = ADFloat64 then some 8
  else none

/-- Is `dataType` one of the six fixed-width integer pixel types? -/
def isIntType (dataType : Int) : Bool := 0 ≤ dataType ∧ dataType ≤ 5

/-- Is `dataType` one of the eight supported pixel types
(the cases of the `COMPUTE_ARRAY` switch)? -/
def isValidType (dataType : Int) : Bool := 0 ≤ dataType ∧ dataType ≤ 7

/-- Bit width of an integer pixel type. -/
def typeBits (dataType : Int) : Nat :=
  if dataType ≤ 1 then 8 else if dataType ≤ 3 then 16 else 32

/-- Signedness of an integer pixel type (even codes are signed). -/
def typeSigned (dataType : Int) : Bool := dataType % 2 = 0

/-- Reduce an integer into the representable range of a `bits`-wide
(two's-complement if `signed`) machine integer. -/
def wrapInt (bits : Nat) (signed : Bool) (v : Int) : Int :=
  if signed then (v + 2 ^ (bits - 1)) % 2 ^ bits - 2 ^ (bits - 1)
  else v % 2 ^ bits

/-- C truncation toward zero of a real (here: rational) value. -/
def truncQ (q : ℚ) : Int := if 0 ≤ q then ⌊q⌋ else -⌊-q⌋

/-- The effect of storing a `double` value into a pixel of type `dataType`
(the C cast `(DATA_TYPE)x`): truncate toward zero and wrap for the integer
types, identity for the float types (floats are modelled exactly). -/
def storePixel (dataType : Int) (q : ℚ) : ℚ :=
  if isIntType dataType then
    ((wrapInt (typeBits dataType) (typeSigned dataType) (truncQ q) : Int) : ℚ)
  else q

/-! ## Parameter store

The driver stores its parameters in the ADParamLib table (`pCamera->params`),
which is not under `src/`.  Modelled from the spec (§4.1): a synchronized
keyed table of typed values; every key used by this driver is a valid key of
its kind, so `get`/`set` on them return OK status.  The table is modelled as
a record with one field per key the driver touches. -/

structure Params where
  acquire : Int
  binX : Int
  binY : Int
  minX : Int
  minY : Int
  sizeX : Int
  sizeY : Int
  maxSizeX : Int
  maxSizeY : Int
  dataType : Int
  frameMode : Int
  numFrames : Int
  imageSizeX : Int
  imageSizeY : Int
  imageSize : Int
  adStatus : Int
  fileNumber : Int
  autoIncrement : Int
  fileFormat : Int
  autoSave : Int
  resetImage : Int
  writeFileReg : Int
  readFileReg : Int
  acquireTime : ℚ
  acquirePeriod : ℚ
  gain : ℚ
  gainX : ℚ
  gainY : ℚ
  fullFileName : String
deriving DecidableEq

/-- The integer-valued parameter keys the driver passes to
`ADParam->setInteger` / `ADParam->getInteger` or dispatches on in
`ADSetInteger` (ADInterface.h keys plus the driver's own `DetParam_t`). -/
inductive IntKey where
  | ADAcquire | ADBinX | ADBinY | ADMinX | ADMinY | ADSizeX | ADSizeY
  | ADMaxSizeX | ADMaxSizeY | ADDataType | ADFrameMode | ADNumFrames
  | ADImageSizeX | ADImageSizeY | ADImageSize | ADStatus | ADFileNumber
  | ADAutoIncrement | ADFileFormat | ADAutoSave | SimResetImage
  | ADWriteFile | ADReadFile
deriving DecidableEq

/-- `ADParam->setInteger` on the modelled table (always OK status for these
keys, per spec §4.1 the store only fails on a missing key or wrong kind). -/
def setIntParam (p : Params) (k : IntKey) (v : Int) : Params :=
  match k with
  | .ADAcquire => { p with acquire := v }
  | .ADBinX => { p with binX := v }
  | .ADBinY => { p with binY := v }
  | .ADMinX => { p with minX := v }
  | .ADMinY => { p with minY := v }
  | .ADSizeX => { p with sizeX := v }
  | .ADSizeY => { p with sizeY := v }
  | .ADMaxSizeX => { p with maxSizeX := v }
  | .ADMaxSizeY => { p with maxSizeY := v }
  | .ADDataType => { p with dataType := v }
  | .ADFrameMode => { p with frameMode := v }
  | .ADNumFrames => { p with numFrames := v }
  | .ADImageSizeX => { p with imageSizeX := v }
  | .ADImageSizeY => { p with imageSizeY := v }
  | .ADImageSize => { p with imageSize := v }
  | .ADStatus => { p with adStatus := v }
  | .ADFileNumber => { p with fileNumber := v }
  | .ADAutoIncrement => { p with autoIncrement := v }
  | .ADFileFormat => { p with fileFormat := v }
  | .ADAutoSave => { p with autoSave := v }
  | .SimResetImage => { p with resetImage := v }
  | .ADWriteFile => { p with writeFileReg := v }
  | .ADReadFile => { p with readFileReg := v }

/-- `ADParam->getInteger` on the modelled table. -/
def getIntParam (p : Params) (k : IntKey) : Int :=
  match k with
  | .ADAcquire => p.acquire
  | .ADBinX => p.binX
  | .ADBinY => p.binY
  | .ADMinX => p.minX
  | .ADMinY => p.minY
  | .ADSizeX => p.sizeX
  | .ADSizeY => p.sizeY
  | .ADMaxSizeX => p.maxSizeX
  | .ADMaxSizeY => p.maxSizeY
  | .ADDataType => p.dataType
  | .ADFrameMode => p.frameMode
  | .ADNumFrames => p.numFrames
  | .ADImageSizeX => p.imageSizeX
  | .ADImageSizeY => p.imageSizeY
  | .ADImageSize => p.imageSize
  | .ADStatus => p.adStatus
  | .ADFileNumber => p.fileNumber
  | .ADAutoIncrement => p.autoIncrement
  | .ADFileFormat => p.fileFormat
  | .ADAutoSave => p.autoSave
  | .SimResetImage => p.resetImage
  | .ADWriteFile => p.writeFileReg
  | .ADReadFile => p.readFileReg

/-- Frame-mode enumeration values.  Modelled from the spec (§4.5):
"single=1, multiple=requested count, continuous=−1" lists the modes in
declaration order single, multiple, continuous. -/
def ADFrameSingle : Int := 0

def ADFrameMultiple : Int := 1

def ADFrameContinuous : Int := 2

/-- Acquisition-status enumeration values.  Modelled from the spec (§4.5):
states are Idle and Acquiring; Idle is the initial (first) state, and
clearing the acquire flag writes the Idle value, which reads as false. -/
def ADStatusIdle : Int := 0

def ADStatusAcquire : Int := 1

/-- The two snapshot encodings (`SimFormat_t` in the source). -/
def SimFormatBinary : Int := 0

def SimFormatASCII : Int := 1

/-! ## Device state -/

/-- The `simDetector_t` structure: the parameter table, the frames-remaining
counter, the wake event, the two frame buffers and the recorded buffer size.
Buffer identity (the C pointers) is modelled by allocation counters so that
reallocation is observable. -/
structure SimState where
  params : Params
  framesRemaining : Int
  eventSignaled : Bool
  rawBuffer : List ℚ
  imageBuffer : List ℚ
  bufferSize : Int
  rawBufferId : Nat
  imageBufferId : Nat
  nextId : Nat
deriving DecidableEq

/-- `simAllocateBuffer`: recompute the byte size and reallocate both buffers
if it changed.  A malloc leaves the new memory uninitialized; the model
fills it with zeros (no claim reads a buffer before it is written).  When
`bytesPerPixel` fails the C code goes on to use an uninitialized
`bytesPerPixel` local (undefined behaviour); the model returns the error
status and leaves the buffers alone. -/
def simAllocateBuffer (s : SimState) (sizeX sizeY dataType : Int) :
    SimState × Bool :=
  match bytesPerPixel dataType with
  | none => (s, true)
  | some bpp =>
    let bufferSize := sizeX * sizeY * bpp
    if bufferSize ≠ s.bufferSize then
      ({ s with
          rawBuffer := List.replicate (sizeX * sizeY).toNat 0
          imageBuffer := List.replicate (sizeX * sizeY).toNat 0
          rawBufferId := s.nextId
          imageBufferId := s.nextId + 1
          nextId := s.nextId + 2
          bufferSize := bufferSize }, false)
    else (s, false)

/-! ## Image synthesis (the COMPUTE_ARRAY macro of simComputeImage) -/

/-- One row of the reset branch of `COMPUTE_ARRAY`: starting from the
running column accumulator `scaleX`, emit `n` pixels
`(DATA_TYPE)(scaleX + scaleY + inc)`, bumping `scaleX` by `gainX` after
each one. -/
def synthRow (dataType : Int) (gainX scaleY incQ : ℚ) :
    Nat → ℚ → List ℚ
  | 0, _ => []
  | n + 1, scaleX =>
    storePixel dataType (scaleX + scaleY + incQ) ::
      synthRow dataType gainX scaleY incQ n (scaleX + gainX)

/-- The reset branch of `COMPUTE_ARRAY`: emit `rows` rows of `mx` pixels,
bumping the running row accumulator `scaleY` by `gainY` after each row. -/
def synthImage (dataType : Int) (gainX gainY incQ : ℚ) (mx : Nat) :
    Nat → ℚ → List ℚ
  | 0, _ => []
  | rows + 1, scaleY =>
    synthRow dataType gainX scaleY incQ mx 0 ++
      synthImage dataType gainX gainY incQ mx rows (scaleY + gainY)

/-- The accumulate branch of `COMPUTE_ARRAY`: `*pData++ += inc` over the
first `n = maxSizeX*maxSizeY` pixels of the raw buffer, in the arithmetic
of the pixel type. -/
def accumBuffer (dataType : Int) (incQ : ℚ) (n : Nat) (buf : List ℚ) :
    List ℚ :=
  (buf.take n).map (fun q => storePixel dataType (q + incQ)) ++ buf.drop n

/-! ## Region extraction (ADUtils convertImage) -/

/-- Modelled from the spec (§4.4): one output pixel reduces a binX×binY
block of the source rectangle.  The spec leaves the reduction policy open
(sum vs average, §9); summation is used here.  No claim depends on the
reduction policy. -/
def blockReduce (raw : List ℚ) (maxW minX minY binX binY : Int)
    (i j : Nat) : ℚ :=
  ((List.range binY.toNat).map (fun bi =>
    ((List.range binX.toNat).map (fun bj =>
      raw.getD ((minY + i * binY + bi) * maxW + minX + j * binX + bj).toNat 0)).sum)).sum

/-- Modelled from the spec (§4.4): `ADUtils->convertImage` (not under
`src/`) partitions the rectangle at (minX, minY) of extent (sizeX, sizeY)
into binX×binY blocks, reduces each block, and reports output dimensions
`sizeX/binX` and `sizeY/binY` (integer division).  Returns
(output buffer, outW, outH, error status).  An unsupported data type or a
nonpositive binning factor (division by zero in C) is modelled as an error
that leaves the output buffer and dimensions untouched (the C locals stay
uninitialized; the model reports 0). -/
def convertImage (dataType maxW maxH : Int) (raw prevOut : List ℚ)
    (binX binY minX minY sizeX sizeY : Int) : List ℚ × Int × Int × Bool :=
  if isValidType dataType ∧ 0 < binX ∧ 0 < binY then
    let outW := sizeX.tdiv binX
    let outH := sizeY.tdiv binY
    (((List.range outH.toNat).map (fun i =>
        (List.range outW.toNat).map (fun j =>
          storePixel dataType (blockReduce raw maxW minX minY binX binY i j)))).flatten,
     outW, outH, false)
  else (prevOut, 0, 0, true)

/-! ## simComputeImage -/

/-- The parameter-consistency pass of `simComputeImage` (lines 388-396 of
the source): clamp negative binning and offsets to 0, clamp offsets to
`maxSize-1`, shrink sizes so that `offset+size ≤ maxSize`; corrected
values are written back to the table. -/
def clampParams (p : Params) : Params :=
  let binX := if p.binX < 0 then 0 else p.binX
  let binY := if p.binY < 0 then 0 else p.binY
  let minX := if p.minX < 0 then 0 else p.minX
  let minY := if p.minY < 0 then 0 else p.minY
  let minX := if minX > p.maxSizeX - 1 then p.maxSizeX - 1 else minX
  let minY := if minY > p.maxSizeY - 1 then p.maxSizeY - 1 else minY
  let sizeX := if minX + p.sizeX > p.maxSizeX then p.maxSizeX - minX else p.sizeX
  let sizeY := if minY + p.sizeY > p.maxSizeY then p.maxSizeY - minY else p.sizeY
  { p with binX := binX, binY := binY, minX := minX, minY := minY,
           sizeX := sizeX, sizeY := sizeY }

/-- `simComputeImage`: read the parameters, run the consistency pass,
ensure buffer capacity, synthesize the raw image over the full maximum
geometry (reset: base pattern `scaleX + scaleY + inc`; otherwise
accumulate `inc` onto every pixel, where `inc` is
`(DATA_TYPE)(gain * exposureTime * 1000)`), extract the region of
interest into the image buffer, publish the output geometry and clear the
reset flag.  Returns the new state and the aggregated status; note that
all `ADParam` accesses succeed in the model, so the status aggregates
`bytesPerPixel`, `simAllocateBuffer` and `convertImage`. -/
def simComputeImage (s : SimState) : SimState × Bool :=
  let p := clampParams s.params
  let stBpp := (bytesPerPixel p.dataType).isNone
  let bpp := (bytesPerPixel p.dataType).getD 0
  let ar := simAllocateBuffer { s with params := p } p.maxSizeX p.maxSizeY p.dataType
  let s1 := ar.1
  let increment := p.gain * p.acquireTime * 1000
  let raw2 :=
    if isValidType p.dataType then
      if p.resetImage ≠ 0 then
        synthImage p.dataType p.gainX p.gainY (storePixel p.dataType increment)
          p.maxSizeX.toNat p.maxSizeY.toNat 0
      else
        accumBuffer p.dataType (storePixel p.dataType increment)
          (p.maxSizeX.toNat * p.maxSizeY.toNat) s1.rawBuffer
    else s1.rawBuffer
  let cv := convertImage p.dataType p.maxSizeX p.maxSizeY raw2 s1.imageBuffer
      p.binX p.binY p.minX p.minY p.sizeX p.sizeY
  let imageSizeX := cv.2.1
  let imageSizeY := cv.2.2.1
  ({ s1 with
      rawBuffer := raw2
      imageBuffer := cv.1
      params := { p with
        imageSize := imageSizeX * imageSizeY * bpp
        imageSizeX := imageSizeX
        imageSizeY := imageSizeY
        resetImage := 0 } },
   stBpp || ar.2 || cv.2.2.2)

/-! ## Snapshot persistence (simWriteFile / simReadFile) -/

/-- A snapshot file: the header written by `simWriteFile`
(imageSizeX, imageSizeY, dataType) followed by the pixel payload.  For the
binary encoding `data` holds the stored pixel values (the native byte
representation round-trips them exactly); for the ASCII encoding it holds
the printed decimal values, one per pixel. -/
structure SimFile where
  format : Int
  fSizeX : Int
  fSizeY : Int
  fDataType : Int
  data : List ℚ
deriving DecidableEq

/-- The file environment: `mkName` models `ADUtils->createFileName` (not
under `src/`; modelled from the spec as a function of the stored sequence
number that may fail), `openWriteOk` models whether `fopen(name, "w"/"wb")`
succeeds, and `fs` is the file-system contents (`fopen(name, "r"/"rb")`
succeeds exactly when the file exists). -/
structure FileEnv where
  mkName : Int → Option String
  openWriteOk : String → Bool
  fs : String → Option SimFile

/-- The `%f` formatting used by `simWriteFile` for float pixels: six
digits after the decimal point, rounded. -/
def round6 (q : ℚ) : ℚ := ((⌊q * 1000000 + 1 / 2⌋ : Int) : ℚ) / 1000000

/-- One printed ASCII pixel: integers are printed verbatim (`%d`/`%u`),
floats with `%f` (six decimals). -/
def fmtText (dataType : Int) (q : ℚ) : ℚ :=
  if isIntType dataType then q else round6 q

/-- `simWriteFile`: build the file name, then write header and payload in
the configured format; on success record the full file name and, if
auto-increment is on, bump the stored file number.  Failure to create the
name or to open the file aborts with an error and changes nothing.  An
unrecognized file format writes nothing but still counts as success
(the C switch has no default).  `fwrite` results are not checked in the C
code, so an opened file always writes successfully. -/
def simWriteFile (env : FileEnv) (s : SimState) : FileEnv × SimState × Bool :=
  let p := s.params
  let npix := (p.imageSizeX * p.imageSizeY).toNat
  match env.mkName p.fileNumber with
  | none => (env, s, true)
  | some fullFileName =>
    let attempt : Option (Option SimFile) :=
      if p.fileFormat = SimFormatBinary then
        if env.openWriteOk fullFileName then
          some (some { format := SimFormatBinary, fSizeX := p.imageSizeX,
                       fSizeY := p.imageSizeY, fDataType := p.dataType,
                       data := s.imageBuffer.take npix })
        else none
      else if p.fileFormat = SimFormatASCII then
        if env.openWriteOk fullFileName then
          some (some { format := SimFormatASCII, fSizeX := p.imageSizeX,
                       fSizeY := p.imageSizeY, fDataType := p.dataType,
                       data := if isValidType p.dataType then
                           (s.imageBuffer.take npix).map (fmtText p.dataType)
                         else [] })
        else none
      else some none
    match attempt with
    | none => (env, s, true)
    | some written =>
      let env' := match written with
        | some f => { env with fs := fun n => if n = fullFileName then some f else env.fs n }
        | none => env
      let p1 := { p with fullFileName := fullFileName }
      let p2 := if p.autoIncrement ≠ 0 then { p1 with fileNumber := p.fileNumber + 1 } else p1
      (env', { s with params := p2 }, false)

/-- `simReadFile`: build the file name, open and parse the file in the
configured format, reallocate the buffers to the header geometry, load the
payload into the image buffer, then record the file name, bump the file
number if auto-increment is on, publish the header geometry/type into the
parameter table and deliver the loaded frame.  A name-creation or open
failure aborts with an error and changes nothing.  Reading a file whose
encoding differs from the configured format would misparse in C; the model
reports it as a read failure (no claim exercises it).  An unrecognized
file format reads nothing and leaves the C header locals uninitialized;
the model uses zeros (no claim exercises it). -/
def simReadFile (env : FileEnv) (s : SimState) : FileEnv × SimState × Bool :=
  let p := s.params
  match env.mkName p.fileNumber with
  | none => (env, s, true)
  | some fullFileName =>
    let parsed : Option (Int × Int × Int × List ℚ) :=
      if p.fileFormat = SimFormatBinary then
        match env.fs fullFileName with
        | none => none
        | some f =>
          if f.format = SimFormatBinary then
            some (f.fSizeX, f.fSizeY, f.fDataType, f.data)
          else none
      else if p.fileFormat = SimFormatASCII then
        match env.fs fullFileName with
        | none => none
        | some f =>
          if f.format = SimFormatASCII then
            some (f.fSizeX, f.fSizeY, f.fDataType, f.data.map (storePixel f.fDataType))
          else none
      else some (0, 0, 0, [])
    match parsed with
    | none => (env, s, true)
    | some (imageSizeX, imageSizeY, dataType, vals) =>
      let s1 := (simAllocateBuffer s imageSizeX imageSizeY dataType).1
      let s2 := { s1 with imageBuffer := vals.take (imageSizeX * imageSizeY).toNat }
      let p1 := { s2.params with fullFileName := fullFileName }
      let p2 := if p.autoIncrement ≠ 0 then { p1 with fileNumber := p.fileNumber + 1 } else p1
      (env, { s2 with params :=
        { p2 with imageSizeX := imageSizeX, imageSizeY := imageSizeY,
                  dataType := dataType } }, false)

/-! ## Boundary operations -/

/-- Does `ADSetInteger` mark the image stale for this key/value (the
`reset` local of the C function)? -/
def resetRequested (function : IntKey) (value : Int) : Bool :=
  match function with
  | .ADAcquire => value ≠ 0
  | .ADBinX | .ADBinY | .ADMinX | .ADMinY | .ADSizeX | .ADSizeY
  | .ADDataType => true
  | .SimResetImage => value ≠ 0
  | _ => false

/-- The frames-remaining count derived from a frame mode
(single=1, multiple=requested count, continuous=−1; an unknown mode leaves
the counter unchanged, the C switch has no default). -/
def framesForMode (frameMode numFrames current : Int) : Int :=
  if frameMode = ADFrameSingle then 1
  else if frameMode = ADFrameMultiple then numFrames
  else if frameMode = ADFrameContinuous then -1
  else current

/-- `ADSetInteger`: store the value, run the per-key side effects
(start acquisition, frame-mode bookkeeping, snapshot write/read), then if
the key marked the image stale set the reset flag and — except for the
acquire command — recompute the image immediately.  Statuses of the
parameter accesses are ORed into the return; the write/read-file cases
overwrite the accumulated status with the file operation's status, and the
status of the triggered recompute is discarded (both faithful to the C
code). -/
def ADSetInteger (env : FileEnv) (s : SimState) (function : IntKey)
    (value : Int) : FileEnv × SimState × Bool :=
  let s0 := { s with params := setIntParam s.params function value }
  let c : FileEnv × SimState × Bool :=
    match function with
    | .ADAcquire =>
      if value ≠ 0 then
        (env, { s0 with
            framesRemaining :=
              framesForMode s0.params.frameMode s0.params.numFrames s0.framesRemaining
            eventSignaled := true }, false)
      else (env, s0, false)
    | .ADFrameMode =>
      (env, { s0 with
          framesRemaining := framesForMode value s0.params.numFrames s0.framesRemaining },
       false)
    | .ADWriteFile => simWriteFile env s0
    | .ADReadFile => simReadFile env s0
    | _ => (env, s0, false)
  let s2 :=
    if resetRequested function value then
      let sa := { c.2.1 with params := { c.2.1.params with resetImage := 1 } }
      if function ≠ .ADAcquire then (simComputeImage sa).1 else sa
    else c.2.1
  (c.1, s2, c.2.2)

/-- `ADGetInteger`: read the current value from the parameter table. -/
def ADGetInteger (s : SimState) (function : IntKey) : Int × Bool :=
  (getIntParam s.params function, false)

/-- `ADSetImage`: downloading image data is not supported; the call only
logs a message and returns `AREA_DETECTOR_ERROR`, touching neither the
buffers nor the parameter table. -/
def ADSetImage (s : SimState) (maxBytes : Int) : SimState × Bool :=
  (s, true)

/-! ## The acquisition task (simTask) -/

/-- The observable outcome of one trip around the `simTask` loop:
either the task found acquisition inactive and blocked on the start event,
or it computed and delivered one frame. -/
inductive TaskStep where
  | waiting
  | frame (data : List ℚ) (dataType imageSizeX imageSizeY : Int)

/-- One iteration of the `simTask` loop.  If acquisition is inactive the
task publishes the Idle status and blocks on the start event (the pacing
delay at the bottom of the C loop is real time and is not modelled).
Otherwise it publishes the Acquiring status, recomputes the image
(status discarded by the C code), delivers the image buffer through the
image-data callback, decrements a positive frames-remaining counter, and
on reaching zero clears the acquire flag; if auto-save is on it then
writes a snapshot. -/
def simTaskIter (env : FileEnv) (s : SimState) : FileEnv × SimState × TaskStep :=
  if s.params.acquire = 0 then
    (env, { s with params := setIntParam s.params .ADStatus ADStatusIdle }, .waiting)
  else
    let s1 := { s with params := setIntParam s.params .ADStatus ADStatusAcquire }
    let s2 := (simComputeImage s1).1
    let step := TaskStep.frame s2.imageBuffer s2.params.dataType
        s2.params.imageSizeX s2.params.imageSizeY
    let s3 := if s2.framesRemaining > 0 then
        { s2 with framesRemaining := s2.framesRemaining - 1 } else s2
    let s4 := if s3.framesRemaining = 0 then
        { s3 with params := setIntParam s3.params .ADAcquire ADStatusIdle } else s3
    let w := if s4.params.autoSave ≠ 0 then simWriteFile env s4 else (env, s4, false)
    (w.1, w.2.1, step)

/-! ## Sub-step status bookkeeping for ADSetInteger

Used to state the error-aggregation claim: the statuses of every sub-step
`ADSetInteger` executes, in execution order, and the subset the C code
actually ORs into the returned status. -/

/-- All sub-step statuses of one `ADSetInteger` call, in execution order:
the initial `ADParam->setInteger`, the case-body parameter reads or file
operation, and (when the image was marked stale) the reset-flag
`setInteger` and the triggered `simComputeImage`.  Parameter-table
accesses always succeed in the model (status `false`). -/
def ADSetIntegerSubstepStatuses (env : FileEnv) (s : SimState)
    (function : IntKey) (value : Int) : List Bool :=
  let s0 := { s with params := setIntParam s.params function value }
  let caseStatuses : List Bool :=
    match function with
    | .ADAcquire => if value ≠ 0 then [false, false] else []
    | .ADFrameMode => if value = ADFrameMultiple then [false] else []
    | .ADWriteFile => [(simWriteFile env s0).2.2]
    | .ADReadFile => [(simReadFile env s0).2.2]
    | _ => []
  let caseState : SimState :=
    match function with
    | .ADWriteFile => (simWriteFile env s0).2.1
    | .ADReadFile => (simReadFile env s0).2.1
    | .ADAcquire =>
      if value ≠ 0 then
        { s0 with
            framesRemaining :=
              framesForMode s0.params.frameMode s0.params.numFrames s0.framesRemaining
            eventSignaled := true }
      else s0
    | .ADFrameMode =>
      { s0 with
          framesRemaining := framesForMode value s0.params.numFrames s0.framesRemaining }
    | _ => s0
  let resetStatuses : List Bool :=
    if resetRequested function value then
      false ::
        (if function ≠ .ADAcquire then
          [(simComputeImage { caseState with
              params := { caseState.params with resetImage := 1 } }).2]
        else [])
    else []
  false :: caseStatuses ++ resetStatuses

/-- The sub-step statuses the C code actually aggregates into
`ADSetInteger`'s return: for the write-file/read-file commands the plain
assignment `status = simWriteFile/simReadFile(...)` makes the file
operation's status the only surviving one; in every other case the
parameter accesses are ORed and the triggered recompute's status is
dropped. -/
def ADSetIntegerKeptStatuses (env : FileEnv) (s : SimState)
    (function : IntKey) (value : Int) : List Bool :=
  let s0 := { s with params := setIntParam s.params function value }
  match function with
  | .ADWriteFile => [(simWriteFile env s0).2.2]
  | .ADReadFile => [(simReadFile env s0).2.2]
  | .ADAcquire =>
    false :: (if value ≠ 0 then [false, false] else []) ++
      (if resetRequested function value then [false] else [])
  | .ADFrameMode =>
    false :: (if value = ADFrameMultiple then [false] else [])
  | _ =>
    false :: (if resetRequested function value then [false] else [])

/-! ## Frame lemmas -/

theorem simAllocateBuffer_params (s : SimState) (x y dt : Int) :
    (simAllocateBuffer s x y dt).1.params = s.params := by
  unfold simAllocateBuffer
  cases bytesPerPixel dt
  · rfl
  · dsimp only
    split <;> rfl

theorem simAllocateBuffer_framesRemaining (s : SimState) (x y dt : Int) :
    (simAllocateBuffer s x y dt).1.framesRemaining = s.framesRemaining := by
  unfold simAllocateBuffer
  cases bytesPerPixel dt
  · rfl
  · dsimp only
    split <;> rfl

theorem simAllocateBuffer_bufferSize (s : SimState) (x y dt bpp : Int)
    (h : bytesPerPixel dt = some bpp) :
    (simAllocateBuffer s x y dt).1.bufferSize = x * y * bpp := by
  unfold simAllocateBuffer
  rw [h]
  dsimp only
  split
  · rfl
  · dsimp only
    omega

theorem simAllocateBuffer_noRealloc (s : SimState) (x y dt bpp : Int)
    (h : bytesPerPixel dt = some bpp) (hsz : s.bufferSize = x * y * bpp) :
    simAllocateBuffer s x y dt = (s, false) := by
  unfold simAllocateBuffer
  rw [h]
  dsimp only
  rw [if_neg (by omega)]

theorem simComputeImage_resetImage (s : SimState) :
    (simComputeImage s).1.params.resetImage = 0 := rfl

theorem simComputeImage_minX (s : SimState) :
    (simComputeImage s).1.params.minX = (clampParams s.params).minX := rfl

theorem simComputeImage_minY (s : SimState) :
    (simComputeImage s).1.params.minY = (clampParams s.params).minY := rfl

theorem simComputeImage_sizeX (s : SimState) :
    (simComputeImage s).1.params.sizeX = (clampParams s.params).sizeX := rfl

theorem simComputeImage_sizeY (s : SimState) :
    (simComputeImage s).1.params.sizeY = (clampParams s.params).sizeY := rfl

theorem simComputeImage_binX (s : SimState) :
    (simComputeImage s).1.params.binX = (clampParams s.params).binX := rfl

theorem simComputeImage_binY (s : SimState) :
    (simComputeImage s).1.params.binY = (clampParams s.params).binY := rfl

theorem simComputeImage_maxSizeX (s : SimState) :
    (simComputeImage s).1.params.maxSizeX = s.params.maxSizeX := rfl

theorem simComputeImage_maxSizeY (s : SimState) :
    (simComputeImage s).1.params.maxSizeY = s.params.maxSizeY := rfl

theorem simComputeImage_acquire (s : SimState) :
    (simComputeImage s).1.params.acquire = s.params.acquire := rfl

theorem simComputeImage_autoSave (s : SimState) :
    (simComputeImage s).1.params.autoSave = s.params.autoSave := rfl

theorem simComputeImage_dataType (s : SimState) :
    (simComputeImage s).1.params.dataType = s.params.dataType := rfl

theorem simComputeImage_framesRemaining (s : SimState) :
    (simComputeImage s).1.framesRemaining = s.framesRemaining := by
  show (simAllocateBuffer _ _ _ _).1.framesRemaining = s.framesRemaining
  rw [simAllocateBuffer_framesRemaining]

/-- The geometry postcondition established by the consistency pass. -/
theorem clampParams_geometry (p : Params)
    (hx : 1 ≤ p.maxSizeX) (hy : 1 ≤ p.maxSizeY) :
    0 ≤ (clampParams p).minX ∧ (clampParams p).minX ≤ p.maxSizeX - 1 ∧
    (clampParams p).minX + (clampParams p).sizeX ≤ p.maxSizeX ∧
    0 ≤ (clampParams p).minY ∧ (clampParams p).minY ≤ p.maxSizeY - 1 ∧
    (clampParams p).minY + (clampParams p).sizeY ≤ p.maxSizeY := by
  simp only [clampParams]
  split_ifs <;> omega

theorem clampParams_maxSizeX (p : Params) : (clampParams p).maxSizeX = p.maxSizeX := rfl

theorem clampParams_maxSizeY (p : Params) : (clampParams p).maxSizeY = p.maxSizeY := rfl

theorem clampParams_dataType (p : Params) : (clampParams p).dataType = p.dataType := rfl

theorem clampParams_resetImage (p : Params) : (clampParams p).resetImage = p.resetImage := rfl

theorem clampParams_gain (p : Params) : (clampParams p).gain = p.gain := rfl

theorem clampParams_gainX (p : Params) : (clampParams p).gainX = p.gainX := rfl

theorem clampParams_gainY (p : Params) : (clampParams p).gainY = p.gainY := rfl

theorem clampParams_acquireTime (p : Params) : (clampParams p).acquireTime = p.acquireTime := rfl

/-- An in-range data type has a pixel size. -/
theorem isValidType_bytesPerPixel (dt : Int) (h : isValidType dt = true) :
    ∃ bpp, bytesPerPixel dt = some bpp := by
  have hb : 0 ≤ dt ∧ dt ≤ 7 := by
    simpa [isValidType] using h
  obtain ⟨h0, h7⟩ := hb
  interval_cases dt <;> exact ⟨_, rfl⟩

theorem simComputeImage_bufferSize (s : SimState) (bpp : Int)
    (h : bytesPerPixel s.params.dataType = some bpp) :
    (simComputeImage s).1.bufferSize = s.params.maxSizeX * s.params.maxSizeY * bpp := by
  show (simAllocateBuffer { s with params := clampParams s.params }
    (clampParams s.params).maxSizeX (clampParams s.params).maxSizeY
    (clampParams s.params).dataType).1.bufferSize = _
  rw [clampParams_dataType, clampParams_maxSizeX, clampParams_maxSizeY,
    simAllocateBuffer_bufferSize _ _ _ _ bpp h]

/-- The accumulate branch of `simComputeImage`: with the reset flag clear
and the buffers already at the required size (so that `simAllocateBuffer`
is a no-op), the raw buffer is bumped by the stored increment pointwise. -/
theorem simComputeImage_rawBuffer_accum (s : SimState) (bpp : Int)
    (hvalid : isValidType s.params.dataType = true)
    (hreset : s.params.resetImage = 0)
    (hbpp : bytesPerPixel s.params.dataType = some bpp)
    (hsz : s.bufferSize = s.params.maxSizeX * s.params.maxSizeY * bpp) :
    (simComputeImage s).1.rawBuffer =
      accumBuffer s.params.dataType
        (storePixel s.params.dataType (s.params.gain * s.params.acquireTime * 1000))
        (s.params.maxSizeX.toNat * s.params.maxSizeY.toNat) s.rawBuffer := by
  have hnoalloc : simAllocateBuffer { s with params := clampParams s.params }
      (clampParams s.params).maxSizeX (clampParams s.params).maxSizeY
      (clampParams s.params).dataType
      = ({ s with params := clampParams s.params }, false) :=
    simAllocateBuffer_noRealloc _ _ _ _ bpp hbpp hsz
  show (let s1 := (simAllocateBuffer { s with params := clampParams s.params }
          (clampParams s.params).maxSizeX (clampParams s.params).maxSizeY
          (clampParams s.params).dataType).1
        if isValidType (clampParams s.params).dataType then
          if (clampParams s.params).resetImage ≠ 0 then
            synthImage (clampParams s.params).dataType (clampParams s.params).gainX
              (clampParams s.params).gainY
              (storePixel (clampParams s.params).dataType
                ((clampParams s.params).gain * (clampParams s.params).acquireTime * 1000))
              (clampParams s.params).maxSizeX.toNat (clampParams s.params).maxSizeY.toNat 0
          else
            accumBuffer (clampParams s.params).dataType
              (storePixel (clampParams s.params).dataType
                ((clampParams s.params).gain * (clampParams s.params).acquireTime * 1000))
              ((clampParams s.params).maxSizeX.toNat * (clampParams s.params).maxSizeY.toNat)
              s1.rawBuffer
        else s1.rawBuffer) = _
  rw [hnoalloc]
  simp only [clampParams_dataType, clampParams_resetImage, clampParams_gain,
    clampParams_gainX, clampParams_gainY, clampParams_acquireTime,
    clampParams_maxSizeX, clampParams_maxSizeY, hvalid, hreset, if_true]
  simp

/-! ## Concrete fixtures used by witnesses and counterexamples -/

/-- A benign file environment: names are created successfully, files open
for writing successfully, the file system starts empty. -/
def testEnv : FileEnv :=
  { mkName := fun _ => some "frame.dat"
    openWriteOk := fun _ => true
    fs := fun _ => none }

/-- Parameters of a freshly configured 10×10 UInt8 camera with unit
per-axis gains and zero exposure/gain (the spec's §8 scenario). -/
def baseParams : Params :=
  { acquire := 0, binX := 1, binY := 1, minX := 0, minY := 0,
    sizeX := 10, sizeY := 10, maxSizeX := 10, maxSizeY := 10,
    dataType := ADUInt8, frameMode := ADFrameContinuous, numFrames := 100,
    imageSizeX := 10, imageSizeY := 10, imageSize := 100, adStatus := 0,
    fileNumber := 1, autoIncrement := 0, fileFormat := SimFormatBinary,
    autoSave := 0, resetImage := 1, writeFileReg := 0, readFileReg := 0,
    acquireTime := 0, acquirePeriod := 0, gain := 0, gainX := 1, gainY := 1,
    fullFileName := "" }

/-- The device state for `baseParams` with buffers already allocated. -/
def baseState : SimState :=
  { params := baseParams, framesRemaining := 0, eventSignaled := false,
    rawBuffer := List.replicate 100 0, imageBuffer := List.replicate 100 0,
    bufferSize := 100, rawBufferId := 0, imageBufferId := 1, nextId := 2 }

/-! ## Claim C3 -/

/-- The corrected-geometry invariant of the consistency pass:
offsets in `[0, maxSize−1]` and `offset+size ≤ maxSize` on both axes. -/
def geometryConsistent (p : Params) : Prop :=
  0 ≤ p.minX ∧ p.minX ≤ p.maxSizeX - 1 ∧ p.minX + p.sizeX ≤ p.maxSizeX ∧
  0 ≤ p.minY ∧ p.minY ≤ p.maxSizeY - 1 ∧ p.minY + p.sizeY ≤ p.maxSizeY

instance (p : Params) : Decidable (geometryConsistent p) := by
  unfold geometryConsistent
  infer_instance

theorem simComputeImage_geometryConsistent (s : SimState)
    (hx : 1 ≤ s.params.maxSizeX) (hy : 1 ≤ s.params.maxSizeY) :
    geometryConsistent (simComputeImage s).1.params := by
  have h := clampParams_geometry s.params hx hy
  unfold geometryConsistent
  rw [simComputeImage_minX, simComputeImage_minY, simComputeImage_sizeX,
    simComputeImage_sizeY, simComputeImage_maxSizeX, simComputeImage_maxSizeY]
  exact h

/-- C3: for every mutation of an offset, size, or binning parameter, the
correction pass run by the mutation leaves the stored geometry with
`offsetX ∈ [0, maxSizeX−1]`, `offsetY ∈ [0, maxSizeY−1]`,
`offsetX+sizeX ≤ maxSizeX` and `offsetY+sizeY ≤ maxSizeY`, provided
`maxSizeX, maxSizeY ≥ 1`. -/
theorem simDetector_C3 (env : FileEnv) (s : SimState) (function : IntKey)
    (value : Int)
    (hf : function = .ADBinX ∨ function = .ADBinY ∨ function = .ADMinX ∨
          function = .ADMinY ∨ function = .ADSizeX ∨ function = .ADSizeY)
    (hx : 1 ≤ s.params.maxSizeX) (hy : 1 ≤ s.params.maxSizeY) :
    geometryConsistent (ADSetInteger env s function value).2.1.params := by
  rcases hf with rfl | rfl | rfl | rfl | rfl | rfl <;>
    exact simComputeImage_geometryConsistent _ hx hy

/-- Witness for C3: moving the X offset of the 10×10 camera to 200 is
corrected back into range. -/
theorem simDetector_C3_witness :
    1 ≤ baseState.params.maxSizeX ∧ 1 ≤ baseState.params.maxSizeY ∧
    geometryConsistent (ADSetInteger testEnv baseState .ADMinX 200).2.1.params :=
  ⟨by decide, by decide,
    simDetector_C3 testEnv baseState .ADMinX 200 (by simp) (by decide) (by decide)⟩

/-! ## Claim C5 -/

/-- C5 counterexample: mutating the X binning factor to −3 stores 0, not
the minimum valid (nonzero) binning factor 1, refuting "the corrected
value stored after the consistency pass is never less than the minimum
valid factor" and "an input of 0 is normalized up to the minimum valid
(nonzero) binning factor" (an input of 0 is likewise stored as 0). -/
theorem simDetector_C5_counterexample :
    (ADSetInteger testEnv baseState .ADBinX (-3)).2.1.params.binX = 0 ∧
    (ADSetInteger testEnv baseState .ADBinX 0).2.1.params.binX = 0 ∧
    ¬ (1 ≤ (ADSetInteger testEnv baseState .ADBinX (-3)).2.1.params.binX) := by
  refine ⟨?_, ?_, ?_⟩
  · show (if (-3 : Int) < 0 then 0 else -3) = 0
    norm_num
  · show (if (0 : Int) < 0 then 0 else 0) = 0
    norm_num
  · show ¬ (1 ≤ (if (-3 : Int) < 0 then 0 else -3))
    norm_num

/-- C5 amended: after a mutation of a per-axis binning factor the
consistency pass stores `max value 0`: negative inputs are corrected up to
0, and an input of 0 is left at 0 (no normalization to a nonzero minimum
happens in the pass). -/
theorem simDetector_C5_amended (env : FileEnv) (s : SimState) (value : Int) :
    (ADSetInteger env s .ADBinX value).2.1.params.binX = max value 0 ∧
    (ADSetInteger env s .ADBinY value).2.1.params.binY = max value 0 := by
  constructor
  · show (if value < 0 then 0 else value) = max value 0
    omega
  · show (if value < 0 then 0 else value) = max value 0
    omega

/-! ## Claim C8 -/

/-- C8: calling `simAllocateBuffer` a second time with identical width,
height and pixel type is a no-op: the state (buffer identities, contents
and recorded size) is returned unchanged with OK status. -/
theorem simDetector_C8 (s : SimState) (sizeX sizeY dataType bpp : Int)
    (h : bytesPerPixel dataType = some bpp) :
    simAllocateBuffer (simAllocateBuffer s sizeX sizeY dataType).1 sizeX sizeY dataType
      = ((simAllocateBuffer s sizeX sizeY dataType).1, false) :=
  simAllocateBuffer_noRealloc _ _ _ _ bpp h
    (simAllocateBuffer_bufferSize s _ _ _ bpp h)

/-- Witness for C8 at a concrete camera and geometry. -/
theorem simDetector_C8_witness :
    bytesPerPixel ADUInt8 = some 1 ∧
    simAllocateBuffer (simAllocateBuffer baseState 16 8 ADUInt8).1 16 8 ADUInt8
      = ((simAllocateBuffer baseState 16 8 ADUInt8).1, false) :=
  ⟨rfl, simDetector_C8 baseState 16 8 ADUInt8 1 rfl⟩

/-! ## Claim C9 -/

/-- C9: `ADSetImage` (the image-write boundary operation) always returns
the error status and leaves the whole device state — both frame buffers
and the parameter table — unchanged. -/
theorem simDetector_C9 (s : SimState) (maxBytes : Int) :
    ADSetImage s maxBytes = (s, true) := rfl

/-! ## Claim C10 -/

/-- C10: `simComputeImage` always leaves the reset-image flag at 0, and
consequently a second computation with no intervening parameter change
takes the accumulate branch: it adds the stored per-frame increment to
every pixel of the previous raw frame instead of recomputing the base
pattern. -/
theorem simDetector_C10 :
    (∀ s : SimState, (simComputeImage s).1.params.resetImage = 0) ∧
    (∀ s : SimState, isValidType s.params.dataType = true →
      (simComputeImage (simComputeImage s).1).1.rawBuffer =
        accumBuffer s.params.dataType
          (storePixel s.params.dataType (s.params.gain * s.params.acquireTime * 1000))
          (s.params.maxSizeX.toNat * s.params.maxSizeY.toNat)
          (simComputeImage s).1.rawBuffer) := by
  refine ⟨fun s => rfl, fun s hvalid => ?_⟩
  obtain ⟨bpp, hbpp⟩ := isValidType_bytesPerPixel _ hvalid
  have h := simComputeImage_rawBuffer_accum (simComputeImage s).1 bpp
    (by rw [simComputeImage_dataType]; exact hvalid)
    (simComputeImage_resetImage s)
    (by rw [simComputeImage_dataType]; exact hbpp)
    (by rw [simComputeImage_maxSizeX, simComputeImage_maxSizeY]
        exact simComputeImage_bufferSize s bpp hbpp)
  rw [h, simComputeImage_dataType, simComputeImage_maxSizeX, simComputeImage_maxSizeY]
  rfl

/-- Witness for C10 on the freshly configured camera. -/
theorem simDetector_C10_witness :
    isValidType baseState.params.dataType = true ∧
    (simComputeImage (simComputeImage baseState).1).1.rawBuffer =
      accumBuffer baseState.params.dataType
        (storePixel baseState.params.dataType
          (baseState.params.gain * baseState.params.acquireTime * 1000))
        (baseState.params.maxSizeX.toNat * baseState.params.maxSizeY.toNat)
        (simComputeImage baseState).1.rawBuffer :=
  ⟨by decide, simDetector_C10.2 baseState (by decide)⟩

/-! ## Claim C2 -/

/-- When acquisition is inactive, the task publishes the Idle status and
blocks on the start event. -/
theorem simTaskIter_idle (e : FileEnv) (s : SimState)
    (h : s.params.acquire = 0) :
    simTaskIter e s =
      (e, { s with params := setIntParam s.params .ADStatus ADStatusIdle },
       .waiting) := by
  unfold simTaskIter
  rw [if_pos h]

/-- One acquiring iteration with one frame remaining and auto-save off:
a frame is delivered, the counter reaches 0 and the acquire flag is
cleared. -/
theorem simTaskIter_single_shot (e : FileEnv) (sA : SimState)
    (hacq : ¬ sA.params.acquire = 0) (hfr : sA.framesRemaining = 1)
    (hsave : sA.params.autoSave = 0) :
    (∃ d dt w h, (simTaskIter e sA).2.2 = TaskStep.frame d dt w h) ∧
    (simTaskIter e sA).1 = e ∧
    (simTaskIter e sA).2.1.framesRemaining = 0 ∧
    (simTaskIter e sA).2.1.params.acquire = 0 ∧
    (simTaskIter e sA).2.1.params.autoSave = 0 := by
  have h1 : (simComputeImage { sA with
      params := setIntParam sA.params .ADStatus ADStatusAcquire }).1.framesRemaining = 1 := by
    rw [simComputeImage_framesRemaining]
    exact hfr
  have h2 : (simComputeImage { sA with
      params := setIntParam sA.params .ADStatus ADStatusAcquire }).1.params.autoSave = 0 := by
    rw [simComputeImage_autoSave]
    exact hsave
  unfold simTaskIter
  rw [if_neg hacq]
  dsimp only
  simp only [setIntParam] at h1 h2 ⊢
  rw [h1]
  norm_num
  simp [h2, ADStatusIdle]

/-- Starting acquisition in single-frame mode: the acquire command stores
the value, sets `framesRemaining` to 1 regardless of the requested frame
count, marks the image stale and signals the wake event. -/
theorem ADSetInteger_acquire_single (env : FileEnv) (s : SimState)
    (value : Int) (hmode : s.params.frameMode = ADFrameSingle)
    (hv : value ≠ 0) :
    ADSetInteger env s .ADAcquire value =
      (env, { s with
        params := { setIntParam s.params .ADAcquire value with resetImage := 1 },
        framesRemaining := 1, eventSignaled := true }, false) := by
  unfold ADSetInteger
  dsimp only [setIntParam]
  rw [if_pos hv, hmode]
  simp [resetRequested, framesForMode, hv]

/-- C2: starting acquisition with a nonzero value while the frame mode is
single sets `framesRemaining` to 1 regardless of the stored requested
frame count; the next task iteration computes and delivers exactly one
frame, decrements `framesRemaining` to 0 and clears the acquire flag, so
the flag subsequently reads false; the following iteration delivers
nothing, publishes the Idle status and blocks. -/
theorem simDetector_C2 (env : FileEnv) (s : SimState) (value : Int)
    (hmode : s.params.frameMode = ADFrameSingle)
    (hsave : s.params.autoSave = 0)
    (hv : value ≠ 0) :
    (ADSetInteger env s .ADAcquire value).2.1.framesRemaining = 1 ∧
    (∃ d dt w h,
      (simTaskIter (ADSetInteger env s .ADAcquire value).1
        (ADSetInteger env s .ADAcquire value).2.1).2.2 = TaskStep.frame d dt w h) ∧
    (simTaskIter (ADSetInteger env s .ADAcquire value).1
      (ADSetInteger env s .ADAcquire value).2.1).2.1.framesRemaining = 0 ∧
    (simTaskIter (ADSetInteger env s .ADAcquire value).1
      (ADSetInteger env s .ADAcquire value).2.1).2.1.params.acquire = 0 ∧
    (ADGetInteger (simTaskIter (ADSetInteger env s .ADAcquire value).1
      (ADSetInteger env s .ADAcquire value).2.1).2.1 .ADAcquire).1 = 0 ∧
    (simTaskIter
      (simTaskIter (ADSetInteger env s .ADAcquire value).1
        (ADSetInteger env s .ADAcquire value).2.1).1
      (simTaskIter (ADSetInteger env s .ADAcquire value).1
        (ADSetInteger env s .ADAcquire value).2.1).2.1).2.2 = TaskStep.waiting ∧
    (simTaskIter
      (simTaskIter (ADSetInteger env s .ADAcquire value).1
        (ADSetInteger env s .ADAcquire value).2.1).1
      (simTaskIter (ADSetInteger env s .ADAcquire value).1
        (ADSetInteger env s .ADAcquire value).2.1).2.1).2.1.params.adStatus
      = ADStatusIdle := by
  rw [ADSetInteger_acquire_single env s value hmode hv]
  dsimp only
  have hshot := simTaskIter_single_shot env
    { s with
      params := { setIntParam s.params .ADAcquire value with resetImage := 1 },
      framesRemaining := 1, eventSignaled := true }
    (by exact hv) rfl (by exact hsave)
  obtain ⟨hframe, henv, hfr0, hacq0, hsv0⟩ := hshot
  have hidle := simTaskIter_idle
    (simTaskIter env
      { s with
        params := { setIntParam s.params .ADAcquire value with resetImage := 1 },
        framesRemaining := 1, eventSignaled := true }).1
    (simTaskIter env
      { s with
        params := { setIntParam s.params .ADAcquire value with resetImage := 1 },
        framesRemaining := 1, eventSignaled := true }).2.1
    hacq0
  exact ⟨rfl, hframe, hfr0, hacq0, hacq0, by rw [hidle], by rw [hidle]; rfl⟩

/-- The 10×10 camera switched to single-frame mode (with a stored request
of 100 frames, to exhibit "regardless of N"). -/
def c2State : SimState :=
  { baseState with params := { baseParams with frameMode := ADFrameSingle } }

/-- Witness for C2: a concrete start command on the single-frame camera. -/
theorem simDetector_C2_witness :
    c2State.params.frameMode = ADFrameSingle ∧
    c2State.params.autoSave = 0 ∧ c2State.params.numFrames = 100 ∧
    (ADSetInteger testEnv c2State .ADAcquire 1).2.1.framesRemaining = 1 ∧
    (simTaskIter (ADSetInteger testEnv c2State .ADAcquire 1).1
      (ADSetInteger testEnv c2State .ADAcquire 1).2.1).2.1.framesRemaining = 0 ∧
    (simTaskIter (ADSetInteger testEnv c2State .ADAcquire 1).1
      (ADSetInteger testEnv c2State .ADAcquire 1).2.1).2.1.params.acquire = 0 :=
  ⟨rfl, rfl, rfl,
    (simDetector_C2 testEnv c2State 1 rfl rfl (by norm_num)).1,
    (simDetector_C2 testEnv c2State 1 rfl rfl (by norm_num)).2.2.1,
    (simDetector_C2 testEnv c2State 1 rfl rfl (by norm_num)).2.2.2.1⟩

/-! ## Claim C7 -/

/-- C7: the stored file-number parameter is incremented by exactly 1 after
a successful snapshot write and after a successful snapshot read when
auto-increment is enabled, is left unchanged on success when auto-increment
is disabled, and is left unchanged (along with the entire state) whenever
the write or read fails — e.g. when the file name cannot be created
(`mkName` is `none`) or the file cannot be opened. -/
theorem simDetector_C7 (env : FileEnv) (s : SimState) :
    ((simWriteFile env s).2.2 = false →
      (simWriteFile env s).2.1.params.fileNumber =
        (if s.params.autoIncrement ≠ 0 then s.params.fileNumber + 1
         else s.params.fileNumber)) ∧
    ((simWriteFile env s).2.2 = true → (simWriteFile env s).2.1 = s) ∧
    ((simReadFile env s).2.2 = false →
      (simReadFile env s).2.1.params.fileNumber =
        (if s.params.autoIncrement ≠ 0 then s.params.fileNumber + 1
         else s.params.fileNumber)) ∧
    ((simReadFile env s).2.2 = true → (simReadFile env s).2.1 = s) := by
  rcases hnm : env.mkName s.params.fileNumber with _ | nm
  · refine ⟨?_, ?_, ?_, ?_⟩ <;> intro hst <;>
      simp_all [simWriteFile, simReadFile]
  · refine ⟨?_, ?_, ?_, ?_⟩ <;> intro hst
    · simp only [simWriteFile, hnm] at hst ⊢
      split_ifs at hst ⊢ <;> simp_all
    · simp only [simWriteFile, hnm] at hst ⊢
      split_ifs at hst ⊢ <;> simp_all
    · simp only [simReadFile, hnm] at hst ⊢
      rcases hfs : env.fs nm with _ | f <;>
        simp only [hfs] at hst ⊢ <;>
        split_ifs at hst ⊢ <;>
        simp_all [simAllocateBuffer_params]
    · simp only [simReadFile, hnm] at hst ⊢
      rcases hfs : env.fs nm with _ | f <;>
        simp only [hfs] at hst ⊢ <;>
        split_ifs at hst ⊢ <;>
        simp_all [simAllocateBuffer_params]

/-- A camera with auto-increment on and file number 4. -/
def c7State : SimState :=
  { baseState with params := { baseParams with autoIncrement := 1, fileNumber := 4 } }

/-- A file environment whose file system already holds a 1×1 binary
snapshot, for exercising a successful read. -/
def c7ReadEnv : FileEnv :=
  { mkName := fun _ => some "frame.dat"
    openWriteOk := fun _ => true
    fs := fun _ => some { format := SimFormatBinary, fSizeX := 1, fSizeY := 1,
                          fDataType := ADUInt8, data := [5] } }

/-- Witness for C7: a successful write and a successful read with
auto-increment on each bump the file number from 4 to 5. -/
theorem simDetector_C7_witness :
    (simWriteFile testEnv c7State).2.2 = false ∧
    (simWriteFile testEnv c7State).2.1.params.fileNumber = 5 ∧
    (simReadFile c7ReadEnv c7State).2.2 = false ∧
    (simReadFile c7ReadEnv c7State).2.1.params.fileNumber = 5 := by
  have hw := (simDetector_C7 testEnv c7State).1 (by rfl)
  have hr := (simDetector_C7 c7ReadEnv c7State).2.2.1 (by rfl)
  refine ⟨rfl, ?_, rfl, ?_⟩
  · rw [hw]
    show (if (1 : Int) ≠ 0 then (4 : Int) + 1 else 4) = 5
    norm_num
  · rw [hr]
    show (if (1 : Int) ≠ 0 then (4 : Int) + 1 else 4) = 5
    norm_num

/-! ## Claim C6 -/

/-- C6 counterexample: setting the data type to the invalid code 99
triggers a recompute whose status is an error (`bytesPerPixel`,
`simAllocateBuffer` and `convertImage` all fail), yet `ADSetInteger`
returns OK because the C code discards the recompute's status: the
returned status is not the OR of the statuses of all executed
sub-steps. -/
theorem simDetector_C6_counterexample :
    (ADSetInteger testEnv baseState .ADDataType 99).2.2 = false ∧
    (ADSetIntegerSubstepStatuses testEnv baseState .ADDataType 99).foldl
      (· || ·) false = true ∧
    ¬ ((ADSetInteger testEnv baseState .ADDataType 99).2.2 =
       (ADSetIntegerSubstepStatuses testEnv baseState .ADDataType 99).foldl
         (· || ·) false) :=
  ⟨rfl, rfl, by decide⟩

/-- C6 amended: the statuses of the parameter get/set sub-steps are
OR-aggregated into `ADSetInteger`'s return, with two exceptions faithful
to the C code: the status of the recompute triggered by a parameter
change is discarded, and in the write-file/read-file cases the file
operation's status replaces the accumulated status (a plain assignment,
not `|=`).  The return therefore equals the OR of the kept sub-step
statuses only. -/
theorem simDetector_C6_amended (env : FileEnv) (s : SimState)
    (function : IntKey) (value : Int) :
    (ADSetInteger env s function value).2.2 =
      (ADSetIntegerKeptStatuses env s function value).foldl (· || ·) false := by
  cases function <;>
    simp [ADSetInteger, ADSetIntegerKeptStatuses, resetRequested] <;>
    split_ifs <;> simp

/-! ## Claim C4 -/

/-- Every element of `l` is already a stored pixel value of type
`dataType` (storing it back is the identity). -/
def pixelsStored (dataType : Int) (l : List ℚ) : Prop :=
  ∀ q ∈ l, storePixel dataType q = q

/-- The file record a successful binary snapshot write stores. -/
def binSnapshot (s : SimState) : SimFile :=
  { format := SimFormatBinary, fSizeX := s.params.imageSizeX,
    fSizeY := s.params.imageSizeY, fDataType := s.params.dataType,
    data := s.imageBuffer.take (s.params.imageSizeX * s.params.imageSizeY).toNat }

/-- The file record a successful ASCII snapshot write stores. -/
def asciiSnapshot (s : SimState) : SimFile :=
  { format := SimFormatASCII, fSizeX := s.params.imageSizeX,
    fSizeY := s.params.imageSizeY, fDataType := s.params.dataType,
    data := (s.imageBuffer.take (s.params.imageSizeX * s.params.imageSizeY).toNat).map
      (fmtText s.params.dataType) }

/-- A successful binary snapshot write, explicitly. -/
theorem simWriteFile_binary (env : FileEnv) (s : SimState) (nm : String)
    (hfmt : s.params.fileFormat = SimFormatBinary)
    (hai : s.params.autoIncrement = 0)
    (hnm : env.mkName s.params.fileNumber = some nm)
    (hopen : env.openWriteOk nm = true) :
    simWriteFile env s =
      ({ env with fs := fun n => if n = nm then some (binSnapshot s) else env.fs n },
       { s with params := { s.params with fullFileName := nm } }, false) := by
  simp only [simWriteFile, hnm, hfmt, hopen, hai, binSnapshot]
  norm_num

/-- A successful ASCII snapshot write, explicitly. -/
theorem simWriteFile_ascii (env : FileEnv) (s : SimState) (nm : String)
    (hfmt : s.params.fileFormat = SimFormatASCII)
    (hvalid : isValidType s.params.dataType = true)
    (hai : s.params.autoIncrement = 0)
    (hnm : env.mkName s.params.fileNumber = some nm)
    (hopen : env.openWriteOk nm = true) :
    simWriteFile env s =
      ({ env with fs := fun n => if n = nm then some (asciiSnapshot s) else env.fs n },
       { s with params := { s.params with fullFileName := nm } }, false) := by
  simp only [simWriteFile, hnm, hfmt, hopen, hai, hvalid, asciiSnapshot]
  norm_num [SimFormatASCII, SimFormatBinary]

/-- A successful binary snapshot read, explicitly. -/
theorem simReadFile_binary (env : FileEnv) (s : SimState) (nm : String)
    (f : SimFile)
    (hfmt : s.params.fileFormat = SimFormatBinary)
    (hai : s.params.autoIncrement = 0)
    (hnm : env.mkName s.params.fileNumber = some nm)
    (hfs : env.fs nm = some f)
    (hffmt : f.format = SimFormatBinary) :
    simReadFile env s =
      (env, { (simAllocateBuffer s f.fSizeX f.fSizeY f.fDataType).1 with
          imageBuffer := f.data.take (f.fSizeX * f.fSizeY).toNat
          params := { (simAllocateBuffer s f.fSizeX f.fSizeY f.fDataType).1.params with
            fullFileName := nm, imageSizeX := f.fSizeX, imageSizeY := f.fSizeY,
            dataType := f.fDataType } }, false) := by
  simp only [simReadFile, hnm, hfmt, hfs, hffmt, hai]
  norm_num

/-- A successful ASCII snapshot read, explicitly. -/
theorem simReadFile_ascii (env : FileEnv) (s : SimState) (nm : String)
    (f : SimFile)
    (hfmt : s.params.fileFormat = SimFormatASCII)
    (hai : s.params.autoIncrement = 0)
    (hnm : env.mkName s.params.fileNumber = some nm)
    (hfs : env.fs nm = some f)
    (hffmt : f.format = SimFormatASCII) :
    simReadFile env s =
      (env, { (simAllocateBuffer s f.fSizeX f.fSizeY f.fDataType).1 with
          imageBuffer := (f.data.map (storePixel f.fDataType)).take
            (f.fSizeX * f.fSizeY).toNat
          params := { (simAllocateBuffer s f.fSizeX f.fSizeY f.fDataType).1.params with
            fullFileName := nm, imageSizeX := f.fSizeX, imageSizeY := f.fSizeY,
            dataType := f.fDataType } }, false) := by
  simp only [simReadFile, hnm, hfmt, hfs, hffmt, hai]
  norm_num [SimFormatASCII, SimFormatBinary]

theorem map_id_of_forall {α : Type} (f : α → α) :
    ∀ (l : List α), (∀ q ∈ l, f q = q) → l.map f = l := by
  intro l hl
  induction l with
  | nil => rfl
  | cons a t ih =>
    simp only [List.map_cons, hl a (by simp), List.cons.injEq, true_and]
    exact ih (fun q hq => hl q (by simp [hq]))

theorem isIntType_isValidType (dt : Int) (h : isIntType dt = true) :
    isValidType dt = true := by
  simp only [isIntType, decide_eq_true_eq] at h
  simp only [isValidType, decide_eq_true_eq]
  omega

/-- The `%f` formatting error is at most half of the last printed digit. -/
theorem round6_close (q : ℚ) : |round6 q - q| ≤ 1 / 2000000 := by
  have h1 : ((⌊q * 1000000 + 1 / 2⌋ : Int) : ℚ) ≤ q * 1000000 + 1 / 2 :=
    Int.floor_le _
  have h2 : q * 1000000 + 1 / 2 - 1 < ((⌊q * 1000000 + 1 / 2⌋ : Int) : ℚ) :=
    Int.sub_one_lt_floor _
  rw [abs_le, round6]
  constructor <;> [nlinarith; nlinarith]

/-- Binary round-trip: a successful write followed by a read of the same
file reproduces the pixel buffer and the geometry/type header exactly. -/
theorem writeRead_binary (env : FileEnv) (s : SimState) (nm : String)
    (hfmt : s.params.fileFormat = SimFormatBinary)
    (hai : s.params.autoIncrement = 0)
    (hnm : env.mkName s.params.fileNumber = some nm)
    (hopen : env.openWriteOk nm = true)
    (hlen : s.imageBuffer.length = (s.params.imageSizeX * s.params.imageSizeY).toNat) :
    (simWriteFile env s).2.2 = false ∧
    (simReadFile (simWriteFile env s).1 (simWriteFile env s).2.1).2.2 = false ∧
    (simReadFile (simWriteFile env s).1 (simWriteFile env s).2.1).2.1.imageBuffer
      = s.imageBuffer ∧
    (simReadFile (simWriteFile env s).1 (simWriteFile env s).2.1).2.1.params.imageSizeX
      = s.params.imageSizeX ∧
    (simReadFile (simWriteFile env s).1 (simWriteFile env s).2.1).2.1.params.imageSizeY
      = s.params.imageSizeY ∧
    (simReadFile (simWriteFile env s).1 (simWriteFile env s).2.1).2.1.params.dataType
      = s.params.dataType := by
  have hw := simWriteFile_binary env s nm hfmt hai hnm hopen
  rw [hw]
  dsimp only
  have hr := simReadFile_binary
    { env with fs := fun n => if n = nm then some (binSnapshot s) else env.fs n }
    { s with params := { s.params with fullFileName := nm } }
    nm (binSnapshot s) (by exact hfmt) (by exact hai) (by exact hnm)
    (by simp) rfl
  rw [hr]
  refine ⟨rfl, rfl, ?_, rfl, rfl, rfl⟩
  show (s.imageBuffer.take (s.params.imageSizeX * s.params.imageSizeY).toNat).take
      (s.params.imageSizeX * s.params.imageSizeY).toNat = s.imageBuffer
  rw [List.take_take, min_self, ← hlen, List.take_length]

/-- ASCII round-trip for integer pixel types: with in-range stored pixels
the decimal text round-trips every pixel exactly. -/
theorem writeRead_ascii_int (env : FileEnv) (s : SimState) (nm : String)
    (hfmt : s.params.fileFormat = SimFormatASCII)
    (hint : isIntType s.params.dataType = true)
    (hstored : pixelsStored s.params.dataType s.imageBuffer)
    (hai : s.params.autoIncrement = 0)
    (hnm : env.mkName s.params.fileNumber = some nm)
    (hopen : env.openWriteOk nm = true)
    (hlen : s.imageBuffer.length = (s.params.imageSizeX * s.params.imageSizeY).toNat) :
    (simWriteFile env s).2.2 = false ∧
    (simReadFile (simWriteFile env s).1 (simWriteFile env s).2.1).2.2 = false ∧
    (simReadFile (simWriteFile env s).1 (simWriteFile env s).2.1).2.1.imageBuffer
      = s.imageBuffer ∧
    (simReadFile (simWriteFile env s).1 (simWriteFile env s).2.1).2.1.params.imageSizeX
      = s.params.imageSizeX ∧
    (simReadFile (simWriteFile env s).1 (simWriteFile env s).2.1).2.1.params.imageSizeY
      = s.params.imageSizeY ∧
    (simReadFile (simWriteFile env s).1 (simWriteFile env s).2.1).2.1.params.dataType
      = s.params.dataType := by
  have hw := simWriteFile_ascii env s nm hfmt (isIntType_isValidType _ hint) hai hnm hopen
  rw [hw]
  dsimp only
  have hr := simReadFile_ascii
    { env with fs := fun n => if n = nm then some (asciiSnapshot s) else env.fs n }
    { s with params := { s.params with fullFileName := nm } }
    nm (asciiSnapshot s) (by exact hfmt) (by exact hai) (by exact hnm)
    (by simp) rfl
  rw [hr]
  refine ⟨rfl, rfl, ?_, rfl, rfl, rfl⟩
  show ((((s.imageBuffer.take (s.params.imageSizeX * s.params.imageSizeY).toNat).map
      (fmtText s.params.dataType)).map (storePixel s.params.dataType)).take
      (s.params.imageSizeX * s.params.imageSizeY).toNat) = s.imageBuffer
  rw [map_id_of_forall (fmtText s.params.dataType) _
      (fun q _ => by simp [fmtText, hint]),
    map_id_of_forall (storePixel s.params.dataType) _
      (fun q hq => hstored q (List.take_subset _ _ hq)),
    List.take_take, min_self, ← hlen, List.take_length]

/-- ASCII round-trip for float pixel types: the read buffer is the
original buffer passed through the six-decimal formatting, each pixel
within `5·10⁻⁷` of the original. -/
theorem writeRead_ascii_float (env : FileEnv) (s : SimState) (nm : String)
    (hfmt : s.params.fileFormat = SimFormatASCII)
    (hflt : s.params.dataType = ADFloat32 ∨ s.params.dataType = ADFloat64)
    (hai : s.params.autoIncrement = 0)
    (hnm : env.mkName s.params.fileNumber = some nm)
    (hopen : env.openWriteOk nm = true)
    (hlen : s.imageBuffer.length = (s.params.imageSizeX * s.params.imageSizeY).toNat) :
    (simWriteFile env s).2.2 = false ∧
    (simReadFile (simWriteFile env s).1 (simWriteFile env s).2.1).2.2 = false ∧
    (simReadFile (simWriteFile env s).1 (simWriteFile env s).2.1).2.1.imageBuffer
      = s.imageBuffer.map round6 ∧
    (∀ q : ℚ, |round6 q - q| ≤ 1 / 2000000) ∧
    (simReadFile (simWriteFile env s).1 (simWriteFile env s).2.1).2.1.params.imageSizeX
      = s.params.imageSizeX ∧
    (simReadFile (simWriteFile env s).1 (simWriteFile env s).2.1).2.1.params.imageSizeY
      = s.params.imageSizeY ∧
    (simReadFile (simWriteFile env s).1 (simWriteFile env s).2.1).2.1.params.dataType
      = s.params.dataType := by
  have hvalid : isValidType s.params.dataType = true := by
    rcases hflt with h | h <;> rw [h] <;> decide
  have hnotint : isIntType s.params.dataType = false := by
    rcases hflt with h | h <;> rw [h] <;> decide
  have hw := simWriteFile_ascii env s nm hfmt hvalid hai hnm hopen
  rw [hw]
  dsimp only
  have hr := simReadFile_ascii
    { env with fs := fun n => if n = nm then some (asciiSnapshot s) else env.fs n }
    { s with params := { s.params with fullFileName := nm } }
    nm (asciiSnapshot s) (by exact hfmt) (by exact hai) (by exact hnm)
    (by simp) rfl
  rw [hr]
  refine ⟨rfl, rfl, ?_, round6_close, rfl, rfl, rfl⟩
  show ((((s.imageBuffer.take (s.params.imageSizeX * s.params.imageSizeY).toNat).map
      (fmtText s.params.dataType)).map (storePixel s.params.dataType)).take
      (s.params.imageSizeX * s.params.imageSizeY).toNat) = s.imageBuffer.map round6
  rw [map_id_of_forall (storePixel s.params.dataType) _
      (fun q _ => by simp [storePixel, hnotint]),
    ← hlen, List.take_length, List.take_of_length_le (by simp [hlen]),
    show fmtText s.params.dataType = round6 from funext fun q => by
      simp [fmtText, hnotint]]

/-- C4: `simWriteFile` followed by `simReadFile` on the same path
reproduces width, height, pixel type and (for the Binary format) every
pixel value exactly; the Text (ASCII) format round-trips integer pixel
types exactly and float pixel types within the `%f` formatting precision
(each pixel moves by at most `1/2000000`). -/
theorem simDetector_C4 :
    (∀ (env : FileEnv) (s : SimState) (nm : String),
      s.params.fileFormat = SimFormatBinary →
      s.params.autoIncrement = 0 →
      env.mkName s.params.fileNumber = some nm →
      env.openWriteOk nm = true →
      s.imageBuffer.length = (s.params.imageSizeX * s.params.imageSizeY).toNat →
      (simWriteFile env s).2.2 = false ∧
      (simReadFile (simWriteFile env s).1 (simWriteFile env s).2.1).2.2 = false ∧
      (simReadFile (simWriteFile env s).1 (simWriteFile env s).2.1).2.1.imageBuffer
        = s.imageBuffer ∧
      (simReadFile (simWriteFile env s).1 (simWriteFile env s).2.1).2.1.params.imageSizeX
        = s.params.imageSizeX ∧
      (simReadFile (simWriteFile env s).1 (simWriteFile env s).2.1).2.1.params.imageSizeY
        = s.params.imageSizeY ∧
      (simReadFile (simWriteFile env s).1 (simWriteFile env s).2.1).2.1.params.dataType
        = s.params.dataType) ∧
    (∀ (env : FileEnv) (s : SimState) (nm : String),
      s.params.fileFormat = SimFormatASCII →
      isIntType s.params.dataType = true →
      pixelsStored s.params.dataType s.imageBuffer →
      s.params.autoIncrement = 0 →
      env.mkName s.params.fileNumber = some nm →
      env.openWriteOk nm = true →
      s.imageBuffer.length = (s.params.imageSizeX * s.params.imageSizeY).toNat →
      (simWriteFile env s).2.2 = false ∧
      (simReadFile (simWriteFile env s).1 (simWriteFile env s).2.1).2.2 = false ∧
      (simReadFile (simWriteFile env s).1 (simWriteFile env s).2.1).2.1.imageBuffer
        = s.imageBuffer ∧
      (simReadFile (simWriteFile env s).1 (simWriteFile env s).2.1).2.1.params.imageSizeX
        = s.params.imageSizeX ∧
      (simReadFile (simWriteFile env s).1 (simWriteFile env s).2.1).2.1.params.imageSizeY
        = s.params.imageSizeY ∧
      (simReadFile (simWriteFile env s).1 (simWriteFile env s).2.1).2.1.params.dataType
        = s.params.dataType) ∧
    (∀ (env : FileEnv) (s : SimState) (nm : String),
      s.params.fileFormat = SimFormatASCII →
      s.params.dataType = ADFloat32 ∨ s.params.dataType = ADFloat64 →
      s.params.autoIncrement = 0 →
      env.mkName s.params.fileNumber = some nm →
      env.openWriteOk nm = true →
      s.imageBuffer.length = (s.params.imageSizeX * s.params.imageSizeY).toNat →
      (simWriteFile env s).2.2 = false ∧
      (simReadFile (simWriteFile env s).1 (simWriteFile env s).2.1).2.2 = false ∧
      (simReadFile (simWriteFile env s).1 (simWriteFile env s).2.1).2.1.imageBuffer
        = s.imageBuffer.map round6 ∧
      (∀ q : ℚ, |round6 q - q| ≤ 1 / 2000000) ∧
      (simReadFile (simWriteFile env s).1 (simWriteFile env s).2.1).2.1.params.imageSizeX
        = s.params.imageSizeX ∧
      (simReadFile (simWriteFile env s).1 (simWriteFile env s).2.1).2.1.params.imageSizeY
        = s.params.imageSizeY ∧
      (simReadFile (simWriteFile env s).1 (simWriteFile env s).2.1).2.1.params.dataType
        = s.params.dataType) :=
  ⟨writeRead_binary,
   fun env s nm h1 h2 h3 h4 h5 h6 h7 => writeRead_ascii_int env s nm h1 h2 h3 h4 h5 h6 h7,
   fun env s nm h1 h2 h3 h4 h5 h6 => writeRead_ascii_float env s nm h1 h2 h3 h4 h5 h6⟩

/-- A 1×2 UInt8 camera frame for the round-trip witness. -/
def c4State : SimState :=
  { baseState with
    params := { baseParams with imageSizeX := 1, imageSizeY := 2 },
    imageBuffer := [3, 7] }

/-- Witness for C4: the 1×2 binary snapshot round-trips exactly. -/
theorem simDetector_C4_witness :
    (simWriteFile testEnv c4State).2.2 = false ∧
    (simReadFile (simWriteFile testEnv c4State).1
      (simWriteFile testEnv c4State).2.1).2.2 = false ∧
    (simReadFile (simWriteFile testEnv c4State).1
      (simWriteFile testEnv c4State).2.1).2.1.imageBuffer = c4State.imageBuffer ∧
    (simReadFile (simWriteFile testEnv c4State).1
      (simWriteFile testEnv c4State).2.1).2.1.params.imageSizeX = 1 ∧
    (simReadFile (simWriteFile testEnv c4State).1
      (simWriteFile testEnv c4State).2.1).2.1.params.imageSizeY = 2 ∧
    (simReadFile (simWriteFile testEnv c4State).1
      (simWriteFile testEnv c4State).2.1).2.1.params.dataType = ADUInt8 :=
  simDetector_C4.1 testEnv c4State "frame.dat" rfl rfl rfl rfl (by decide)

/-! ## Claim C1 -/

theorem synthRow_length (dt : Int) (gX sY inc : ℚ) (n : Nat) (x : ℚ) :
    (synthRow dt gX sY inc n x).length = n := by
  induction n generalizing x with
  | zero => rfl
  | succ n ih => simp [synthRow, ih]

theorem synthRow_get (dt : Int) (gX sY inc : ℚ) (n : Nat) (x : ℚ) (j : Nat)
    (hj : j < n) :
    (synthRow dt gX sY inc n x)[j]? =
      some (storePixel dt ((x + j * gX) + sY + inc)) := by
  induction n generalizing x j with
  | zero => omega
  | succ n ih =>
    cases j with
    | zero =>
      rw [synthRow, List.getElem?_cons_zero]
      exact congrArg some (congrArg (storePixel dt) (by push_cast; ring))
    | succ j =>
      rw [synthRow, List.getElem?_cons_succ, ih (x + gX) j (by omega)]
      exact congrArg some (congrArg (storePixel dt) (by push_cast; ring))

theorem synthImage_get (dt : Int) (gX gY inc : ℚ) (mx rows : Nat) (y : ℚ)
    (i j : Nat) (hi : i < rows) (hj : j < mx) :
    (synthImage dt gX gY inc mx rows y)[i * mx + j]? =
      some (storePixel dt ((j * gX) + (y + i * gY) + inc)) := by
  induction rows generalizing y i with
  | zero => omega
  | succ rows ih =>
    rw [synthImage]
    cases i with
    | zero =>
      simp only [Nat.zero_mul, Nat.zero_add]
      rw [List.getElem?_append_left (by rw [synthRow_length]; omega),
        synthRow_get dt gX y inc mx 0 j hj]
      exact congrArg some (congrArg (storePixel dt) (by push_cast; ring))
    | succ i =>
      rw [Nat.succ_mul]
      rw [List.getElem?_append_right (by rw [synthRow_length]; omega),
        synthRow_length]
      have hidx : i * mx + mx + j - mx = i * mx + j := by omega
      rw [hidx, ih (y + gY) i (by omega)]
      exact congrArg some (congrArg (storePixel dt) (by push_cast; ring))

/-- The reset branch of `simComputeImage`: with the reset flag set and a
supported pixel type, the raw buffer becomes the base pattern. -/
theorem simComputeImage_rawBuffer_reset (s : SimState)
    (hvalid : isValidType s.params.dataType = true)
    (hreset : s.params.resetImage ≠ 0) :
    (simComputeImage s).1.rawBuffer =
      synthImage s.params.dataType s.params.gainX s.params.gainY
        (storePixel s.params.dataType (s.params.gain * s.params.acquireTime * 1000))
        s.params.maxSizeX.toNat s.params.maxSizeY.toNat 0 := by
  show (let s1 := (simAllocateBuffer { s with params := clampParams s.params }
          (clampParams s.params).maxSizeX (clampParams s.params).maxSizeY
          (clampParams s.params).dataType).1
        if isValidType (clampParams s.params).dataType then
          if (clampParams s.params).resetImage ≠ 0 then
            synthImage (clampParams s.params).dataType (clampParams s.params).gainX
              (clampParams s.params).gainY
              (storePixel (clampParams s.params).dataType
                ((clampParams s.params).gain * (clampParams s.params).acquireTime * 1000))
              (clampParams s.params).maxSizeX.toNat (clampParams s.params).maxSizeY.toNat 0
          else
            accumBuffer (clampParams s.params).dataType
              (storePixel (clampParams s.params).dataType
                ((clampParams s.params).gain * (clampParams s.params).acquireTime * 1000))
              ((clampParams s.params).maxSizeX.toNat * (clampParams s.params).maxSizeY.toNat)
              s1.rawBuffer
        else s1.rawBuffer) = _
  simp only [clampParams_dataType, clampParams_resetImage, clampParams_gain,
    clampParams_gainX, clampParams_gainY, clampParams_acquireTime,
    clampParams_maxSizeX, clampParams_maxSizeY, hvalid, if_true]
  rw [if_pos hreset]

/-- C1 amended: over the full maximum geometry, with reset set, the pixel
at (row i, col j) is `(DATA_TYPE)(j·gainX + i·gainY + inc)` where
`inc = (DATA_TYPE)(gain·exposureTime·1000)` — the exposure intensity is
itself truncated to the destination pixel type before being added (the C
local `DATA_TYPE inc = (DATA_TYPE)increment`), not only on the final
store; with reset clear, each pixel becomes itself plus the truncated
increment in the destination type's arithmetic. -/
theorem simDetector_C1_amended (s : SimState) :
    (∀ i j : Nat, s.params.resetImage ≠ 0 →
      isValidType s.params.dataType = true →
      i < s.params.maxSizeY.toNat → j < s.params.maxSizeX.toNat →
      (simComputeImage s).1.rawBuffer[i * s.params.maxSizeX.toNat + j]? =
        some (storePixel s.params.dataType
          ((j : ℚ) * s.params.gainX + (i : ℚ) * s.params.gainY +
            storePixel s.params.dataType
              (s.params.gain * s.params.acquireTime * 1000)))) ∧
    (∀ bpp : Int, s.params.resetImage = 0 →
      isValidType s.params.dataType = true →
      bytesPerPixel s.params.dataType = some bpp →
      s.bufferSize = s.params.maxSizeX * s.params.maxSizeY * bpp →
      (simComputeImage s).1.rawBuffer =
        accumBuffer s.params.dataType
          (storePixel s.params.dataType (s.params.gain * s.params.acquireTime * 1000))
          (s.params.maxSizeX.toNat * s.params.maxSizeY.toNat) s.rawBuffer) := by
  constructor
  · intro i j hreset hvalid hi hj
    rw [simComputeImage_rawBuffer_reset s hvalid hreset,
      synthImage_get _ _ _ _ _ _ _ i j hi hj]
    exact congrArg some (congrArg (storePixel s.params.dataType) (by ring))
  · intro bpp hreset hvalid hbpp hsz
    exact simComputeImage_rawBuffer_accum s bpp hvalid hreset hbpp hsz

/-- The reset-branch pixel value exactly as the specification words it:
all arithmetic performed in floating point and truncated to the
destination pixel type only on store. -/
def specSynthValue (dataType : Int) (gainX gainY exposureIntensity : ℚ)
    (i j : Nat) : ℚ :=
  storePixel dataType
    ((j : ℚ) * gainX + (i : ℚ) * gainY + exposureIntensity)

/-- A 2×1 UInt8 camera with gainX = 0.75, gain = 5 and exposure time
2⁻¹¹ s — every double value involved is an exactly representable dyadic
rational, so the rational model coincides with IEEE double arithmetic
here.  The exposure intensity is 5·2⁻¹¹·1000 = 625/256 ≈ 2.441. -/
def c1State : SimState :=
  { params := { baseParams with
      maxSizeX := 2, maxSizeY := 1, sizeX := 2, sizeY := 1,
      imageSizeX := 2, imageSizeY := 1, imageSize := 2,
      gain := 5, acquireTime := 1 / 2048, gainX := 3 / 4, gainY := 0 },
    framesRemaining := 0, eventSignaled := false,
    rawBuffer := [0, 0], imageBuffer := [0, 0], bufferSize := 2,
    rawBufferId := 0, imageBufferId := 1, nextId := 2 }

/-- C1 counterexample: at (row 0, col 1) the code stores
`(uint8)(0.75 + (uint8)2.441) = 2`, while the claim's formula —
truncation to the destination type only on store — gives
`(uint8)(0.75 + 2.441) = (uint8)3.19 = 3`. -/
theorem simDetector_C1_counterexample :
    c1State.params.gain * c1State.params.acquireTime * 1000 = 625 / 256 ∧
    (simComputeImage c1State).1.rawBuffer[1]? = some 2 ∧
    specSynthValue ADUInt8 (3 / 4) 0 (625 / 256) 0 1 = 3 ∧
    (simComputeImage c1State).1.rawBuffer[1]? ≠
      some (specSynthValue ADUInt8 (3 / 4) 0 (625 / 256) 0 1) := by
  have hrw := simComputeImage_rawBuffer_reset c1State (by decide) (by decide)
  have hval : storePixel c1State.params.dataType
      (c1State.params.gain * c1State.params.acquireTime * 1000) = 2 := by
    show storePixel 1 ((5 : ℚ) * (1 / 2048) * 1000) = 2
    norm_num [storePixel, isIntType, typeBits, typeSigned, wrapInt, truncQ]
  have hE : c1State.params.gain * c1State.params.acquireTime * 1000 = 625 / 256 := by
    show (5 : ℚ) * (1 / 2048) * 1000 = 625 / 256
    norm_num
  have hpix : (simComputeImage c1State).1.rawBuffer[1]? = some 2 := by
    rw [hrw, hval]
    show (synthImage 1 (3 / 4) 0 2 2 1 0)[1]? = some 2
    norm_num [synthImage, synthRow, storePixel, isIntType, typeBits,
      typeSigned, wrapInt, truncQ]
  have hspec : specSynthValue ADUInt8 (3 / 4) 0 (625 / 256) 0 1 = 3 := by
    norm_num [specSynthValue, storePixel, isIntType, typeBits, typeSigned,
      wrapInt, truncQ, ADUInt8]
  refine ⟨hE, hpix, hspec, ?_⟩
  rw [hpix, hspec]
  norm_num

/-- Witness for C1 (amended): the spec §8 scenario — 10×10 UInt8 camera,
gainX = gainY = 1, exposureTime = 0, gain = 0 — yields pixel(0,0) = 0 and
pixel(row 2, col 3) = 5 on the first (reset) synthesis. -/
theorem simDetector_C1_witness :
    baseState.params.resetImage ≠ 0 ∧
    isValidType baseState.params.dataType = true ∧
    (simComputeImage baseState).1.rawBuffer[0]? = some 0 ∧
    (simComputeImage baseState).1.rawBuffer[23]? = some 5 := by
  have h := (simDetector_C1_amended baseState).1
  have h00 := h 0 0 (by decide) (by decide) (by decide) (by decide)
  have h23 := h 2 3 (by decide) (by decide) (by decide) (by decide)
  have hidx0 : 0 * baseState.params.maxSizeX.toNat + 0 = 0 := by decide
  have hidx23 : 2 * baseState.params.maxSizeX.toNat + 3 = 23 := by decide
  rw [hidx0] at h00
  rw [hidx23] at h23
  refine ⟨by decide, by decide, ?_, ?_⟩
  · rw [h00]
    show some (storePixel 1 ((0 : ℚ) * 1 + 0 * 1 + storePixel 1 (0 * 0 * 1000)))
      = some (0 : ℚ)
    norm_num [storePixel, isIntType, typeBits, typeSigned, wrapInt, truncQ]
  · rw [h23]
    show some (storePixel 1 ((3 : ℚ) * 1 + 2 * 1 + storePixel 1 (0 * 0 * 1000)))
      = some (5 : ℚ)
    norm_num [storePixel, isIntType, typeBits, typeSigned, wrapInt, truncQ]

end SimDetector
